import Mathlib

/-!
Verification of the LocalFlow desktop agent session controller
(src/agent/localflow-agent.py).

The Python source is shallowly embedded: each class becomes a structure,
each method a pure function from the old state (plus the outcomes of the
external world: audio device, clipboard, simulated keystrokes, clock) to
the new state together with its return value.  WebSocket emissions are
collected in an outbox list; timestamps are naturals (milliseconds).
-/

namespace LocalFlow

/-! ### Keys (pynput key objects as they reach the listeners) -/

inductive Key where
  | alt_l | alt_r | alt_gr | alt | ctrl_l | shift | char (c : Char)
deriving DecidableEq, Repr

/-- The list `[Key.alt_l, Key.alt_r, Key.alt_gr]` tested by `on_release`
and used when registering the alt variants of each binding. -/
def altVariants : List Key := [Key.alt_l, Key.alt_r, Key.alt_gr]

/-! ### Python string helpers used by the hotkey parsing

`binding.lower().replace("+", " ").split()` is modelled over the
character list of the string: ASCII lowercasing, `+` to space, and the
whitespace split (which drops empty fields) are spelled out. -/

def asciiLower (c : Char) : Char :=
  if 'A' ≤ c ∧ c ≤ 'Z' then Char.ofNat (c.toNat + 32) else c

def plusToSpace (c : Char) : Char := if c = '+' then ' ' else c

/-- Python `str.split()` whitespace: exactly the characters for which
`str.isspace()` holds — tab through carriage return (0x09-0x0d), the
information separators 0x1c-0x1f, space, next line 0x85, no-break space
0xa0, and the Unicode space separators (Ogham space mark, the en-quad
family 0x2000-0x200a, line and paragraph separators, narrow no-break
space, medium mathematical space, ideographic space). -/
def isSpaceChar (c : Char) : Bool :=
  (9 ≤ c.toNat ∧ c.toNat ≤ 13) ∨ (28 ≤ c.toNat ∧ c.toNat ≤ 31) ∨
  c.toNat = 32 ∨ c.toNat = 0x85 ∨ c.toNat = 0xa0 ∨ c.toNat = 0x1680 ∨
  (0x2000 ≤ c.toNat ∧ c.toNat ≤ 0x200a) ∨ c.toNat = 0x2028 ∨
  c.toNat = 0x2029 ∨ c.toNat = 0x202f ∨ c.toNat = 0x205f ∨ c.toNat = 0x3000

/-- Whitespace split with an accumulator for the word being read,
matching Python `str.split()` (runs of whitespace, no empty fields). -/
def splitWhiteAux : List Char → List Char → List String
  | [], acc => if acc = [] then [] else [String.mk acc.reverse]
  | c :: cs, acc =>
    if isSpaceChar c then
      if acc = [] then splitWhiteAux cs []
      else String.mk acc.reverse :: splitWhiteAux cs []
    else splitWhiteAux cs (c :: acc)

/-- `parts = hotkey_str.lower().replace("+", " ").split()` -/
def pyParts (s : String) : List String :=
  splitWhiteAux ((s.data.map asciiLower).map plusToSpace) []

/-! ### Configuration (class Config, defaults of the source) -/

structure Config where
  websocket_url : String := "http://localhost:3002"
  sample_rate : Nat := 16000
  channels : Nat := 1
  hotkey : String := "alt+z"
  format_hotkey : String := "alt+m"
  mode : String := "developer"
  processing_mode : String := "networked-local"
  heartbeat_interval : Nat := 5
  paste_cooldown_ms : Nat := 100
deriving Repr

def CONFIG : Config := {}

/-! ### WAV encoding (scipy.io.wavfile.write for int16 mono data)

Bytes are naturals below 256.  `wavfile.write` emits the canonical
44-byte RIFF/WAVE header followed by the samples, little-endian, two
bytes per int16 sample. -/

def u16le (n : Nat) : List Nat := [n % 256, n / 256 % 256]

def u32le (n : Nat) : List Nat :=
  [n % 256, n / 256 % 256, n / 65536 % 256, n / 16777216 % 256]

/-- Two's-complement 16-bit little-endian encoding of one sample. -/
def int16le (x : Int) : List Nat :=
  let u : Nat := (x % 65536).toNat
  [u % 256, u / 256]

def wavHeader (rate : Nat) (dataLen : Nat) : List Nat :=
  [0x52, 0x49, 0x46, 0x46] ++ u32le (36 + dataLen) ++
  [0x57, 0x41, 0x56, 0x45] ++
  [0x66, 0x6d, 0x74, 0x20] ++ u32le 16 ++ u16le 1 ++ u16le CONFIG.channels ++
  u32le rate ++ u32le (rate * CONFIG.channels * 2) ++
  u16le (CONFIG.channels * 2) ++ u16le 16 ++
  [0x64, 0x61, 0x74, 0x61] ++ u32le dataLen

/-- WAV bytes for a sample list: header, then every sample in order. -/
def wavEncode (rate : Nat) (samples : List Int) : List Nat :=
  wavHeader rate (2 * samples.length) ++ (samples.map int16le).flatten

/-! ### base64.b64encode (applied to the WAV bytes in _stop_recording) -/

def b64char (n : Nat) : Char :=
  "ABCDEFGHIJKLMNOPQRSTUVWXYZabcdefghijklmnopqrstuvwxyz0123456789+/".data.getD n 'A'

def base64Encode : List Nat → List Char
  | [] => []
  | [a] => [b64char (a / 4), b64char (a % 4 * 16), '=', '=']
  | [a, b] => [b64char (a / 4), b64char (a % 4 * 16 + b / 16), b64char (b % 16 * 4), '=']
  | a :: b :: c :: rest =>
    b64char (a / 4) :: b64char (a % 4 * 16 + b / 16) ::
    b64char (b % 16 * 4 + c / 64) :: b64char (c % 64) :: base64Encode rest

/-! ### class AudioRecorder -/

structure AudioRecorder where
  recording : Bool
  audio_data : List (List Int)
  /-- whether a stream object is currently held (self.stream is not None) -/
  stream : Bool
  /-- ghost instrumentation: number of invocations of `start()`; it is not
  part of the Python state and no operation reads it. -/
  startCalls : Nat
deriving DecidableEq, Repr

def AudioRecorder.init : AudioRecorder :=
  { recording := false, audio_data := [], stream := false, startCalls := 0 }

/-- `AudioRecorder.start`.  `deviceOk` is the outcome of constructing and
starting the sounddevice InputStream: `false` means that raised (device
unavailable), which the source catches, logs and turns into `False`.
Note the source clears `audio_data` before the stream is opened, so a
failed start still leaves the buffer empty. -/
def AudioRecorder.start (r : AudioRecorder) (deviceOk : Bool) : Bool × AudioRecorder :=
  let r := { r with startCalls := r.startCalls + 1 }
  if r.recording then (false, r)
  else if deviceOk then
    (true, { r with recording := true, audio_data := [], stream := true })
  else
    (false, { r with audio_data := [] })

/-- `AudioRecorder._audio_callback`: append a chunk while recording. -/
def AudioRecorder.audio_callback (r : AudioRecorder) (indata : List Int) : AudioRecorder :=
  if r.recording then { r with audio_data := r.audio_data ++ [indata] } else r

/-- `AudioRecorder.stop`.  `teardownOk = false` models an exception inside
the try block (stream stop/close or encoding), which the source catches
and turns into `None`; `recording` has already been set to `False` at
that point. -/
def AudioRecorder.stop (r : AudioRecorder) (teardownOk : Bool) : Option (List Nat) × AudioRecorder :=
  if ¬ r.recording then (none, r)
  else
    let r := { r with recording := false }
    if ¬ teardownOk then (none, r)
    else
      let r := { r with stream := false }
      if r.audio_data = [] then (none, r)
      else
        (some (wavEncode CONFIG.sample_rate r.audio_data.flatten), r)

def AudioRecorder.is_recording (r : AudioRecorder) : Bool := r.recording

/-! ### class PasteHandler

The handler's only use of its `agent` reference is toggling the shared
suppression flag `agent.pasting_in_progress`; that flag is carried here
as a field of the handler state.  `PasteEnv` records the outcomes of the
external calls: clipboard write, active-window lookup, and the simulated
paste keystrokes (the attempted one, and the bare-except ctrl+v
fallback).  Window-title detection only switches the modifier of the
simulated keystroke (alt for Windows Terminal, ctrl otherwise), which
does not affect the state.  The cooldown branch only sleeps. -/

structure PasteEnv where
  darwin : Bool
  clipboardOk : Bool
  windowDetectOk : Bool
  primaryKeyOk : Bool
  fallbackKeyOk : Bool
deriving DecidableEq, Repr

structure PasteHandler where
  last_paste_time : Nat
  pasting_in_progress : Bool
deriving DecidableEq, Repr

/-- `PasteHandler.paste_text` with `now = time.time()` read at entry.
Every failure path runs the `finally` block, which clears the flag. -/
def PasteHandler.paste_text (st : PasteHandler) (env : PasteEnv) (now : Nat) : Bool × PasteHandler :=
  let st := { st with pasting_in_progress := true }
  if ¬ env.clipboardOk then
    (false, { st with pasting_in_progress := false })
  else
    let keystrokeOk :=
      if env.darwin then env.primaryKeyOk
      else if env.windowDetectOk then env.primaryKeyOk || env.fallbackKeyOk
      else env.fallbackKeyOk
    if keystrokeOk then
      (true, { st with last_paste_time := now, pasting_in_progress := false })
    else
      (false, { st with pasting_in_progress := false })

/-! ### class LocalFlowAgent: state and the recording session methods -/

/-- One attempted `sio.emit` on the /agent namespace (the payload as
built by the source; `process_audio` carries the base64 of the WAV). -/
inductive Emit where
  | recording_started (timestamp : Nat) (format_mode : Bool)
  | process_audio (audio : List Char) (mode : String) (processingMode : String) (timestamp : Nat)
  | ping
deriving DecidableEq, Repr

structure AgentState where
  recorder : AudioRecorder
  connected : Bool
  mode : String
  processing_mode : String
  hotkey_pressed : Bool
  format_mode_active : Bool
  pasting_in_progress : Bool
  pressed_keys : List Key
  overlayVisible : Bool
  emitted : List Emit
deriving DecidableEq, Repr

def initialAgent : AgentState :=
  { recorder := AudioRecorder.init
    connected := false
    mode := CONFIG.mode
    processing_mode := CONFIG.processing_mode
    hotkey_pressed := false
    format_mode_active := false
    pasting_in_progress := false
    pressed_keys := []
    overlayVisible := false
    emitted := [] }

/-- `LocalFlowAgent._start_recording`: only when `recorder.start()`
succeeds does it show the overlay, set `format_mode_active`, and (if
connected) emit `recording_started`. -/
def start_recording (deviceOk : Bool) (now : Nat) (format_mode : Bool) (ag : AgentState) : AgentState :=
  let res := ag.recorder.start deviceOk
  let ag := { ag with recorder := res.2 }
  if res.1 then
    let ag := { ag with overlayVisible := true, format_mode_active := format_mode }
    if ag.connected then
      { ag with emitted := ag.emitted ++ [Emit.recording_started now format_mode] }
    else ag
  else ag

/-- `LocalFlowAgent._stop_recording`: hide the overlay, stop the
recorder, compute the effective mode ("outline" override when
`format_mode_active`), emit `process_audio` when audio came back and the
client is connected, and always reset `format_mode_active`. -/
def stop_recording (teardownOk : Bool) (now : Nat) (ag : AgentState) : AgentState :=
  let ag := { ag with overlayVisible := false }
  let res := ag.recorder.stop teardownOk
  let ag := { ag with recorder := res.2 }
  let effective_mode := if ag.format_mode_active then "outline" else ag.mode
  let ag :=
    match res.1 with
    | some wav =>
      if ag.connected then
        { ag with emitted := ag.emitted ++
            [Emit.process_audio (base64Encode wav) effective_mode ag.processing_mode now] }
      else ag
    | none => ag
  { ag with format_mode_active := false }

/-- `LocalFlowAgent._on_hotkey_press`: the GlobalHotKeys callback.  Note
`hotkey_pressed` is set before `_start_recording` runs, and there is no
check of `pasting_in_progress` on this path. -/
def on_hotkey_press (deviceOk : Bool) (now : Nat) (format_mode : Bool) (ag : AgentState) : AgentState :=
  if ¬ ag.hotkey_pressed then
    start_recording deviceOk now format_mode { ag with hotkey_pressed := true }
  else ag

/-- `on_press` of the release listener: honours the suppression flag,
then adds the key to the `pressed_keys` set. -/
def on_press (k : Key) (ag : AgentState) : AgentState :=
  if ag.pasting_in_progress then ag
  else if k ∈ ag.pressed_keys then ag
  else { ag with pressed_keys := ag.pressed_keys ++ [k] }

/-- `on_release` of the release listener.  `plainParts` is the closure
variable `parts` (the split of the *plain* hotkey string): the letter
comparison is against `parts[1]` for every session, format or not.  In
the char branch with fewer than two parts Python would raise IndexError
when reading `parts[1]`; the claims only use valid plain bindings, and
the model returns the state unchanged there. -/
def on_release (teardownOk : Bool) (now : Nat) (plainParts : List String) (k : Key) (ag : AgentState) : AgentState :=
  if ag.pasting_in_progress then ag
  else
    let ag := { ag with pressed_keys := ag.pressed_keys.erase k }
    if ag.hotkey_pressed && ag.recorder.is_recording then
      if k ∈ altVariants then
        stop_recording teardownOk now { ag with hotkey_pressed := false }
      else
        match k, plainParts with
        | Key.char c, _ :: p1 :: _ =>
          if String.singleton (asciiLower c) = p1 then
            stop_recording teardownOk now { ag with hotkey_pressed := false }
          else ag
        | _, _ => ag
    else ag

/-! ### pynput GlobalHotKeys (the library listener the source registers
combos with; it keeps a per-combo pressed set and fires the callback on
the press completing the combo, with no knowledge of the suppression
flag) -/

structure HotKey where
  keys : List Key
  /-- which callback the source registered: `_on_hotkey_press(format_mode=·)` -/
  format_mode : Bool
  state : List Key
deriving DecidableEq, Repr

/-- pynput `HotKey.press`: add a relevant new key to the combo state and
report whether the combo just became fully pressed. -/
def HotKey.press (hk : HotKey) (k : Key) : HotKey × Bool :=
  if k ∈ hk.keys ∧ ¬ k ∈ hk.state then
    let s := hk.state ++ [k]
    ({ hk with state := s }, hk.keys.all fun x => decide (x ∈ s))
  else (hk, false)

/-- pynput `HotKey.release`: drop the key from the combo state. -/
def HotKey.release (hk : HotKey) (k : Key) : HotKey :=
  { hk with state := hk.state.erase k }

/-- Deliver a press to every registered combo in order; a combo that
fires invokes `_on_hotkey_press` with its registered format flag. -/
def ghkPressAux (deviceOk : Bool) (now : Nat) (k : Key) :
    List HotKey → AgentState → List HotKey × AgentState
  | [], ag => ([], ag)
  | hk :: hks, ag =>
    let r := hk.press k
    let ag := if r.2 then on_hotkey_press deviceOk now r.1.format_mode ag else ag
    let rest := ghkPressAux deviceOk now k hks ag
    (r.1 :: rest.1, rest.2)

/-! ### The two listeners together: the observable system -/

structure SystemState where
  /-- the GlobalHotKeys registrations with their internal combo state -/
  hotkeys : List HotKey
  /-- closure variable `parts` captured by `on_release` -/
  plainParts : List String
  agent : AgentState
deriving DecidableEq, Repr

/-- Outcomes of the external world for one delivered event. -/
structure StepEnv where
  deviceOk : Bool := true
  teardownOk : Bool := true
  now : Nat := 0
deriving DecidableEq, Repr

def E : StepEnv := {}

inductive RawEvent where
  | press (k : Key)
  | release (k : Key)
  | frame (samples : List Int)
deriving DecidableEq, Repr

/-- One raw event.  Both listeners receive every key event: the
GlobalHotKeys listener (which never consults `pasting_in_progress`) and
the release listener's `on_press` / `on_release` (which do).  The two
touch disjoint parts of the state, so the delivery order between the two
listener threads is immaterial; the model runs GlobalHotKeys first. -/
def step (env : StepEnv) (s : SystemState) : RawEvent → SystemState
  | RawEvent.press k =>
    let r := ghkPressAux env.deviceOk env.now k s.hotkeys s.agent
    { s with hotkeys := r.1, agent := on_press k r.2 }
  | RawEvent.release k =>
    { s with hotkeys := s.hotkeys.map (fun hk => hk.release k),
             agent := on_release env.teardownOk env.now s.plainParts k s.agent }
  | RawEvent.frame samples =>
    { s with agent := { s.agent with recorder := s.agent.recorder.audio_callback samples } }

def run (env : StepEnv) (es : List RawEvent) (s : SystemState) : SystemState :=
  es.foldl (step env) s

/-! ### _setup_hotkey_listener -/

/-- Registration of one binding string inside `_setup_hotkey_listener`,
over the already split parts: `if parts[0] == "alt" and len(parts) == 2
and len(parts[1]) == 1` register the three alt-variant combos, else
register nothing (silently, with no warning).  `parts[0]` on an empty
list raises IndexError, modelled as `.error`. -/
def registerBindingAux (fm : Bool) : List String → Except String (List HotKey)
  | [] => Except.error "IndexError: list index out of range"
  | [p0, p1] =>
    if p0 = "alt" ∧ p1.length = 1 then
      Except.ok (altVariants.map fun a =>
        { keys := [a, Key.char (p1.data.headD ' ')], format_mode := fm, state := [] })
    else Except.ok []
  | _ :: _ :: _ :: _ => Except.ok []
  | [_] => Except.ok []

/-- `parts = binding.lower().replace("+", " ").split()`, then register. -/
def registerBinding (bindingStr : String) (fm : Bool) : Except String (List HotKey) :=
  registerBindingAux fm (pyParts bindingStr)

/-- The condition under which the source registers combos for a binding. -/
def validBindingAux : List String → Bool
  | [p0, p1] => decide (p0 = "alt" ∧ p1.length = 1)
  | _ => false

def validBinding (s : String) : Bool := validBindingAux (pyParts s)

/-- `_setup_hotkey_listener`: parse the plain binding, then the format
binding, build the GlobalHotKeys table and capture `parts` for the
release listener.  The returned string list collects the `log_warning`
calls made by this function: the source makes none. -/
def setup_hotkey_listener (hotkey fmtHotkey : String) (ag : AgentState) :
    Except String (SystemState × List String) := do
  let plain ← registerBinding hotkey false
  let fmt ← registerBinding fmtHotkey true
  Except.ok ({ hotkeys := plain ++ fmt, plainParts := pyParts hotkey, agent := ag }, [])

def exceptOk {ε α : Type} : Except ε α → Bool
  | Except.ok _ => true
  | Except.error _ => false

def setupWarnings (e : Except String (SystemState × List String)) : List String :=
  match e with
  | Except.ok r => r.2
  | Except.error _ => []

def plainCombos (hks : List HotKey) : List HotKey :=
  hks.filter fun hk => !hk.format_mode

def fmtCombos (hks : List HotKey) : List HotKey :=
  hks.filter fun hk => hk.format_mode

def setupPlain (e : Except String (SystemState × List String)) : List HotKey :=
  match e with
  | Except.ok r => plainCombos r.1.hotkeys
  | Except.error _ => []

def setupFmt (e : Except String (SystemState × List String)) : List HotKey :=
  match e with
  | Except.ok r => fmtCombos r.1.hotkeys
  | Except.error _ => []

/-- The system as built by run() with the default bindings alt+z / alt+m. -/
def defaultSystem : SystemState :=
  match setup_hotkey_listener CONFIG.hotkey CONFIG.format_hotkey initialAgent with
  | Except.ok r => r.1
  | Except.error _ => { hotkeys := [], plainParts := [], agent := initialAgent }

/-- Default system, connected, with a given default mode and processing
location (the mutable config fields of the agent). -/
def readySystem (m pm : String) : SystemState :=
  { defaultSystem with agent :=
      { defaultSystem.agent with connected := true, mode := m, processing_mode := pm } }

/-! ### Observation helpers over the outbox -/

def emitMode : Emit → Option String
  | Emit.process_audio _ md _ _ => some md
  | _ => none

/-- The `mode` fields of the attempted `process_audio` emits, in order. -/
def processAudioModes (es : List Emit) : List String := es.filterMap emitMode

def isStarted : Emit → Bool
  | Emit.recording_started _ _ => true
  | _ => false

/-- How many `recording_started` notifications were attempted. -/
def startedCount (es : List Emit) : Nat := (es.filter isStarted).length

/-! ### Basic facts about the recorder -/

theorem wavEncode_ne_nil (rate : Nat) (s : List Int) : wavEncode rate s ≠ [] := by
  unfold wavEncode wavHeader
  simp

/-- Every `stop()` call leaves `recording = false`, whatever happened. -/
theorem AudioRecorder.stop_snd_recording (r : AudioRecorder) (t : Bool) :
    ((r.stop t).2).recording = false := by
  unfold AudioRecorder.stop
  by_cases h1 : r.recording <;> by_cases h2 : t <;> by_cases h3 : r.audio_data = [] <;>
    simp_all

theorem AudioRecorder.stop_some (r : AudioRecorder) (h : r.recording = true)
    (hd : r.audio_data ≠ []) :
    (r.stop true).1 = some (wavEncode CONFIG.sample_rate r.audio_data.flatten) := by
  unfold AudioRecorder.stop
  simp [h, hd]

theorem AudioRecorder.start_startCalls (r : AudioRecorder) (d : Bool) :
    ((r.start d).2).startCalls = r.startCalls + 1 := by
  unfold AudioRecorder.start
  by_cases h : r.recording <;> cases d <;> simp [h]

/-! ### Basic facts about the controller transitions -/

theorem start_recording_hotkey_pressed (d : Bool) (n : Nat) (f : Bool) (ag : AgentState) :
    (start_recording d n f ag).hotkey_pressed = ag.hotkey_pressed := by
  unfold start_recording
  rcases hr : ag.recorder.start d with ⟨ok, rec⟩
  cases ok <;> by_cases hc : ag.connected <;> simp [hr, hc]

theorem start_recording_startCalls (d : Bool) (n : Nat) (f : Bool) (ag : AgentState) :
    (start_recording d n f ag).recorder.startCalls = ag.recorder.startCalls + 1 := by
  unfold start_recording
  have hs := AudioRecorder.start_startCalls ag.recorder d
  rcases hr : ag.recorder.start d with ⟨ok, rec⟩
  rw [hr] at hs
  simp at hs
  cases ok <;> by_cases hc : ag.connected <;> simp [hr, hc, hs]

theorem startedCount_append (a b : List Emit) :
    startedCount (a ++ b) = startedCount a + startedCount b := by
  unfold startedCount
  simp [List.filter_append]

theorem start_recording_startedCount (d : Bool) (n : Nat) (f : Bool) (ag : AgentState) :
    startedCount (start_recording d n f ag).emitted ≤ startedCount ag.emitted + 1 := by
  unfold start_recording
  rcases hr : ag.recorder.start d with ⟨ok, rec⟩
  cases ok <;> by_cases hc : ag.connected <;>
    simp [hr, hc, startedCount_append, startedCount, isStarted, List.filter]

theorem stop_recording_recorder_recording (t : Bool) (n : Nat) (ag : AgentState) :
    (stop_recording t n ag).recorder.recording = false := by
  unfold stop_recording
  have hs := AudioRecorder.stop_snd_recording ag.recorder t
  rcases hr : ag.recorder.stop t with ⟨res, rec⟩
  rw [hr] at hs
  simp at hs
  cases res <;> by_cases hc : ag.connected <;> simp [hr, hc, hs]

theorem stop_recording_hotkey_pressed (t : Bool) (n : Nat) (ag : AgentState) :
    (stop_recording t n ag).hotkey_pressed = ag.hotkey_pressed := by
  unfold stop_recording
  rcases hr : ag.recorder.stop t with ⟨res, rec⟩
  cases res <;> by_cases hc : ag.connected <;> simp [hr, hc]

theorem on_hotkey_press_armed (d : Bool) (n : Nat) (f : Bool) (ag : AgentState)
    (h : ag.hotkey_pressed = true) : on_hotkey_press d n f ag = ag := by
  unfold on_hotkey_press
  simp [h]

theorem on_hotkey_press_arms (d : Bool) (n : Nat) (f : Bool) (ag : AgentState)
    (h : ag.hotkey_pressed = false) :
    (on_hotkey_press d n f ag).hotkey_pressed = true := by
  unfold on_hotkey_press
  simp [h, start_recording_hotkey_pressed]

/-! ### Claim C6 -/

/-- Claim C6: `AudioRecorder.stop()` returns `none` exactly when the
recorder is not active (`start()` never called, or already stopped) or
when zero frames were appended; otherwise it returns the WAV encoding of
the appended frames concatenated in arrival order (`audio_data.flatten`
keeps the append order), and that byte string is non-empty.  Normal
operation (no exception during stream teardown) is modelled by the
`true` argument; the exception path is covered by C9. -/
theorem C6_stop_return_contract (r : AudioRecorder) :
    (r.stop true).1 = (if r.recording = true ∧ r.audio_data ≠ []
        then some (wavEncode CONFIG.sample_rate r.audio_data.flatten) else none) ∧
    (∀ w, (r.stop true).1 = some w → w ≠ []) := by
  have hmain : (r.stop true).1 = (if r.recording = true ∧ r.audio_data ≠ []
      then some (wavEncode CONFIG.sample_rate r.audio_data.flatten) else none) := by
    unfold AudioRecorder.stop
    by_cases h : r.recording <;> by_cases hd : r.audio_data = [] <;> simp [h, hd]
  refine ⟨hmain, ?_⟩
  intro w hw
  rw [hmain] at hw
  by_cases hc : r.recording = true ∧ r.audio_data ≠ []
  · simp [hc] at hw
    rw [← hw]
    exact wavEncode_ne_nil _ _
  · simp [hc] at hw

def rEx : AudioRecorder :=
  { recording := true, audio_data := [[5, -3]], stream := true, startCalls := 1 }

theorem C6_witness :
    wavEncode CONFIG.sample_rate (([[5, -3]] : List (List Int)).flatten) ≠ [] :=
  (C6_stop_return_contract rEx).2 _ (by decide)

/-! ### Claim C9 -/

/-- Claim C9: every call to `stop()` leaves the recorder inactive —
whether it returned bytes, `none` for an empty buffer or inactivity, or
`none` because teardown/encoding raised (`t = false`) — so a subsequent
`start()` on a healthy device is never rejected for being active. -/
theorem C9_stop_leaves_inactive (r : AudioRecorder) (t : Bool) :
    ((r.stop t).2).is_recording = false ∧ (((r.stop t).2).start true).1 = true := by
  have h := AudioRecorder.stop_snd_recording r t
  constructor
  · simpa [AudioRecorder.is_recording] using h
  · unfold AudioRecorder.start
    simp [h]

/-! ### Claim C7 -/

/-- Claim C7: `paste_text` clears the suppression flag on every path —
clipboard failure, keystroke failure (with or without the window-detect
fallback), and success — before returning. -/
theorem C7_suppression_always_cleared (env : PasteEnv) (now : Nat) (st : PasteHandler) :
    ((st.paste_text env now).2).pasting_in_progress = false := by
  unfold PasteHandler.paste_text
  by_cases h1 : env.clipboardOk = true <;> by_cases h2 : env.darwin = true <;>
    by_cases h3 : env.windowDetectOk = true <;> by_cases h4 : env.primaryKeyOk = true <;>
    by_cases h5 : env.fallbackKeyOk = true <;>
    simp [h1, h2, h3, h4, h5]

/-! ### Claim C10 -/

/-- Claim C10: `last_paste_time` is only advanced by a successful paste;
a call that fails (returns `false`) leaves it unchanged, so a failed
paste imposes no cooldown on the next attempt. -/
theorem C10_failed_paste_no_cooldown (env : PasteEnv) (now : Nat) (st : PasteHandler)
    (h : (st.paste_text env now).1 = false) :
    ((st.paste_text env now).2).last_paste_time = st.last_paste_time := by
  unfold PasteHandler.paste_text at h ⊢
  by_cases h1 : env.clipboardOk = true <;> by_cases h2 : env.darwin = true <;>
    by_cases h3 : env.windowDetectOk = true <;> by_cases h4 : env.primaryKeyOk = true <;>
    by_cases h5 : env.fallbackKeyOk = true <;>
    simp [h1, h2, h3, h4, h5] at h ⊢

def envFail : PasteEnv :=
  { darwin := false, clipboardOk := false, windowDetectOk := true,
    primaryKeyOk := true, fallbackKeyOk := true }

def pasteEx : PasteHandler := { last_paste_time := 3, pasting_in_progress := false }

theorem C10_witness :
    ((pasteEx.paste_text envFail 7).2).last_paste_time = pasteEx.last_paste_time :=
  C10_failed_paste_no_cooldown envFail 7 pasteEx (by decide)

/-! ### Claim C1 -/

/-- The default system in the middle of an automated paste:
`pasting_in_progress` has been set by `paste_text`. -/
def pasteSystem : SystemState :=
  { defaultSystem with agent :=
      { defaultSystem.agent with pasting_in_progress := true } }

/-- Claim C1 is violated by the code: while the suppression flag is set,
the release listener does ignore the events (the pressed-key set stays
empty), but the GlobalHotKeys listener never consults the flag, so a
key sequence completing the alt+z combo delivered during a paste still
fires `_on_hotkey_press` and starts a recording session — a session
state transition occurs while `pasting_in_progress` is `true`. -/
theorem C1_suppressed_events_still_start_recording :
    pasteSystem.agent.pasting_in_progress = true ∧
    pasteSystem.agent.recorder.recording = false ∧
    (run E [RawEvent.press Key.alt_l, RawEvent.press (Key.char 'z')]
        pasteSystem).agent.pressed_keys = [] ∧
    (run E [RawEvent.press Key.alt_l, RawEvent.press (Key.char 'z')]
        pasteSystem).agent.recorder.recording = true ∧
    (run E [RawEvent.press Key.alt_l, RawEvent.press (Key.char 'z')]
        pasteSystem).agent.hotkey_pressed = true ∧
    (run E [RawEvent.press Key.alt_l, RawEvent.press (Key.char 'z')]
        pasteSystem).agent.pasting_in_progress = true := by
  decide

/-! ### Claim C2 -/

/-- The default system, connected, before any key event. -/
def connectedSystem : SystemState :=
  { defaultSystem with agent := { defaultSystem.agent with connected := true } }

def failEnv : StepEnv := { deviceOk := false }

/-- Activate edge with the audio device failing to open. -/
def c2AfterFail : SystemState :=
  run failEnv [RawEvent.press Key.alt_l, RawEvent.press (Key.char 'z')] connectedSystem

/-- Full release of the hotkey, then a fresh activate edge with a
healthy device. -/
def c2Retry : SystemState :=
  run E [RawEvent.press Key.alt_l, RawEvent.press (Key.char 'z')]
    (run E [RawEvent.release (Key.char 'z'), RawEvent.release Key.alt_l] c2AfterFail)

/-- Claim C2 is violated by the code: when `AudioRecorder.start()` fails
on the activate edge, no overlay is shown, nothing is emitted and the
recorder stays idle (the parts of the claim that hold) — but
`hotkey_pressed` was set before `start()` and `on_release` only resets
it while `is_recording()` is true, so it stays `true` forever: after a
full release and a second activate edge with a healthy device, `start()`
is not invoked again (`startCalls` stays 1) and no recording begins. -/
theorem C2_failed_start_locks_out_later_activations :
    c2AfterFail.agent.overlayVisible = false ∧
    c2AfterFail.agent.emitted = [] ∧
    c2AfterFail.agent.recorder.recording = false ∧
    c2AfterFail.agent.recorder.startCalls = 1 ∧
    c2AfterFail.agent.hotkey_pressed = true ∧
    c2Retry.agent.recorder.startCalls = 1 ∧
    c2Retry.agent.recorder.recording = false ∧
    c2Retry.agent.overlayVisible = false ∧
    c2Retry.agent.emitted = [] := by
  decide

/-! ### Claim C8 -/

/-- Claim C8 as stated is false: the empty binding string is an invalid
binding, and `_setup_hotkey_listener` does not complete on it — reading
`parts[0]` of the empty split raises IndexError instead of leaving the
binding unregistered. -/
theorem C8_counterexample_empty_binding_raises :
    exceptOk (setup_hotkey_listener "" "alt+m" initialAgent) = false := by
  decide

theorem registerBinding_spec (s : String) (fm : Bool) (h : pyParts s ≠ []) :
    ∃ l, registerBinding s fm = Except.ok l ∧
      (validBinding s = false → l = []) ∧
      ∀ hk ∈ l, hk.format_mode = fm := by
  unfold registerBinding validBinding
  rcases hp : pyParts s with _ | ⟨p0, rest⟩
  · exact absurd hp h
  · rcases rest with _ | ⟨p1, rest2⟩
    · exact ⟨[], by simp [registerBindingAux], by simp, by simp⟩
    · rcases rest2 with _ | ⟨p2, rest3⟩
      · by_cases hc : p0 = "alt" ∧ p1.length = 1
        · refine ⟨altVariants.map fun a =>
              { keys := [a, Key.char (p1.data.headD ' ')], format_mode := fm, state := [] },
            by simp [registerBindingAux, hc], ?_, ?_⟩
          · intro hv
            simp [validBindingAux, hc] at hv
          · intro hk hmem
            simp [altVariants] at hmem
            rcases hmem with h1 | h1 | h1 <;> rw [h1]
        · exact ⟨[], by simp [registerBindingAux, hc], by simp, by simp⟩
      · exact ⟨[], by simp [registerBindingAux], by simp, by simp⟩

/-- Claim C8, amended to what the code does: a binding string whose
split has at least one token never makes setup raise — an invalid such
binding is silently left unregistered (no combos for it), but no warning
is logged (the source logs none in this function); a binding string with
no tokens at all (empty or only separators) raises IndexError instead. -/
theorem C8_amended_nonempty_invalid_binding_skipped (h f : String) (ag : AgentState)
    (hh : pyParts h ≠ []) (hf : pyParts f ≠ []) :
    exceptOk (setup_hotkey_listener h f ag) = true ∧
    setupWarnings (setup_hotkey_listener h f ag) = [] ∧
    (validBinding h = false → setupPlain (setup_hotkey_listener h f ag) = []) ∧
    (validBinding f = false → setupFmt (setup_hotkey_listener h f ag) = []) := by
  obtain ⟨lh, eh, hinvh, hfmh⟩ := registerBinding_spec h false hh
  obtain ⟨lf, ef, hinvf, hfmf⟩ := registerBinding_spec f true hf
  unfold setup_hotkey_listener
  refine ⟨?_, ?_, ?_, ?_⟩
  · simp [eh, ef, exceptOk, Bind.bind, Except.bind]
  · simp [eh, ef, setupWarnings, Bind.bind, Except.bind]
  · intro hv
    simp [eh, ef, setupPlain, plainCombos, Bind.bind, Except.bind, hinvh hv]
    intro hk hmem
    simp [hfmf hk hmem]
  · intro hv
    simp [eh, ef, setupFmt, fmtCombos, Bind.bind, Except.bind, hinvf hv]
    intro hk hmem
    simp [hfmh hk hmem]

theorem C8_witness :
    exceptOk (setup_hotkey_listener "ctrl+q" "altm" initialAgent) = true ∧
    setupWarnings (setup_hotkey_listener "ctrl+q" "altm" initialAgent) = [] ∧
    setupPlain (setup_hotkey_listener "ctrl+q" "altm" initialAgent) = [] ∧
    setupFmt (setup_hotkey_listener "ctrl+q" "altm" initialAgent) = [] :=
  ⟨(C8_amended_nonempty_invalid_binding_skipped "ctrl+q" "altm" initialAgent
      (by decide) (by decide)).1,
   (C8_amended_nonempty_invalid_binding_skipped "ctrl+q" "altm" initialAgent
      (by decide) (by decide)).2.1,
   (C8_amended_nonempty_invalid_binding_skipped "ctrl+q" "altm" initialAgent
      (by decide) (by decide)).2.2.1 (by decide),
   (C8_amended_nonempty_invalid_binding_skipped "ctrl+q" "altm" initialAgent
      (by decide) (by decide)).2.2.2 (by decide)⟩

/-! ### Claim C3 -/

/-- A format-binding session in flight: alt_l then m pressed on the
connected default system with a healthy device, one frame captured. -/
def c3FormatSession : SystemState :=
  run E [RawEvent.press Key.alt_l, RawEvent.press (Key.char 'm'),
         RawEvent.frame [1, -2, 3]]
    (readySystem "concise" "networked-local")

/-- Claim C3 counterexample: in a session started via the format binding
alt+m, releasing the literal key m (while alt is still held) does *not*
stop the recording — `on_release` compares the released character against
the *plain* binding's letter (`parts[1]`, here z) for every session —
contradicting the claim that releasing the armed binding's literal key
always deactivates. -/
theorem C3_counterexample_format_letter_release_ignored :
    c3FormatSession.agent.format_mode_active = true ∧
    c3FormatSession.agent.recorder.recording = true ∧
    (step E c3FormatSession
        (RawEvent.release (Key.char 'm'))).agent.recorder.recording = true := by
  decide

/-- Claim C3 amended: during any recording session (not suppressed by a
paste), releasing any physical Alt variant stops the recording, and
releasing the *plain* binding's literal key stops it too (even while the
modifier is held, and regardless of which binding started the session);
releasing any other character — in particular the format binding's
letter during a format session — does not stop it. -/
theorem C3_amended_deactivate_on_alt_or_plain_letter (env : StepEnv) (s : SystemState)
    (p0 p1 : String) (rest : List String)
    (hparts : s.plainParts = p0 :: p1 :: rest)
    (hpaste : s.agent.pasting_in_progress = false)
    (harm : s.agent.hotkey_pressed = true)
    (hrec : s.agent.recorder.recording = true) :
    (∀ k ∈ altVariants,
      (step env s (RawEvent.release k)).agent.recorder.recording = false ∧
      (step env s (RawEvent.release k)).agent.hotkey_pressed = false) ∧
    (∀ c : Char, String.singleton (asciiLower c) = p1 →
      (step env s (RawEvent.release (Key.char c))).agent.recorder.recording = false ∧
      (step env s (RawEvent.release (Key.char c))).agent.hotkey_pressed = false) ∧
    (∀ c : Char, String.singleton (asciiLower c) ≠ p1 →
      (step env s (RawEvent.release (Key.char c))).agent.recorder.recording = true) := by
  refine ⟨?_, ?_, ?_⟩
  · intro k hk
    simp only [step, on_release, hparts, hpaste, harm, hrec,
      AudioRecorder.is_recording, if_false, Bool.false_eq_true, ite_false]
    simp [hk, harm, hrec, AudioRecorder.is_recording,
      stop_recording_recorder_recording, stop_recording_hotkey_pressed]
  · intro c hm
    simp only [step, on_release, hparts, hpaste, harm, hrec,
      AudioRecorder.is_recording, if_false, Bool.false_eq_true, ite_false]
    simp [altVariants, harm, hrec, AudioRecorder.is_recording, hm,
      stop_recording_recorder_recording, stop_recording_hotkey_pressed]
  · intro c hm
    simp only [step, on_release, hparts, hpaste, harm, hrec,
      AudioRecorder.is_recording, if_false, Bool.false_eq_true, ite_false]
    simp [altVariants, harm, hrec, AudioRecorder.is_recording, hm]

theorem C3_witness :
    ((step E c3FormatSession (RawEvent.release Key.alt_r)).agent.recorder.recording = false ∧
     (step E c3FormatSession (RawEvent.release Key.alt_r)).agent.hotkey_pressed = false) ∧
    ((step E c3FormatSession (RawEvent.release (Key.char 'z'))).agent.recorder.recording = false ∧
     (step E c3FormatSession (RawEvent.release (Key.char 'z'))).agent.hotkey_pressed = false) ∧
    (step E c3FormatSession (RawEvent.release (Key.char 'm'))).agent.recorder.recording = true :=
  ⟨(C3_amended_deactivate_on_alt_or_plain_letter E c3FormatSession "alt" "z" []
      (by decide) (by decide) (by decide) (by decide)).1 Key.alt_r (by decide),
   (C3_amended_deactivate_on_alt_or_plain_letter E c3FormatSession "alt" "z" []
      (by decide) (by decide) (by decide) (by decide)).2.1 'z' (by decide),
   (C3_amended_deactivate_on_alt_or_plain_letter E c3FormatSession "alt" "z" []
      (by decide) (by decide) (by decide) (by decide)).2.2 'm' (by decide)⟩

/-! ### Claim C4 -/

structure ActivateEdge where
  deviceOk : Bool
  now : Nat
  format_mode : Bool
deriving DecidableEq, Repr

/-- A sequence of GlobalHotKeys activate callbacks with no intervening
deactivate: each one invokes `_on_hotkey_press`. -/
def runActivates (es : List ActivateEdge) (ag : AgentState) : AgentState :=
  es.foldl (fun a e => on_hotkey_press e.deviceOk e.now e.format_mode a) ag

theorem runActivates_armed (es : List ActivateEdge) (ag : AgentState)
    (h : ag.hotkey_pressed = true) : runActivates es ag = ag := by
  induction es generalizing ag with
  | nil => rfl
  | cons e es ih =>
    show runActivates es (on_hotkey_press e.deviceOk e.now e.format_mode ag) = ag
    rw [on_hotkey_press_armed e.deviceOk e.now e.format_mode ag h]
    exact ih ag h

/-- Claim C4: activate while already armed is a no-op.  For any sequence
of activate edges with no intervening deactivate starting from an
unarmed controller, the whole run equals the effect of the first edge
alone (so no second session is opened), `AudioRecorder.start()` is
invoked exactly once, and at most one `recording_started` notification
is attempted. -/
theorem C4_activate_idempotent (ag : AgentState) (h : ag.hotkey_pressed = false)
    (e : ActivateEdge) (es : List ActivateEdge) :
    runActivates (e :: es) ag = on_hotkey_press e.deviceOk e.now e.format_mode ag ∧
    (runActivates (e :: es) ag).recorder.startCalls = ag.recorder.startCalls + 1 ∧
    startedCount (runActivates (e :: es) ag).emitted ≤ startedCount ag.emitted + 1 := by
  have h1 : runActivates (e :: es) ag = on_hotkey_press e.deviceOk e.now e.format_mode ag := by
    show runActivates es (on_hotkey_press e.deviceOk e.now e.format_mode ag) = _
    exact runActivates_armed es _ (on_hotkey_press_arms _ _ _ _ h)
  refine ⟨h1, ?_, ?_⟩
  · rw [h1]
    unfold on_hotkey_press
    simp [h, start_recording_startCalls]
  · rw [h1]
    unfold on_hotkey_press
    simp only [h, Bool.false_eq_true, not_false_eq_true, if_true, ite_true]
    exact start_recording_startedCount e.deviceOk e.now e.format_mode _

def edgeEx1 : ActivateEdge := { deviceOk := true, now := 0, format_mode := false }

def edgeEx2 : ActivateEdge := { deviceOk := true, now := 10, format_mode := true }

theorem C4_witness :
    runActivates [edgeEx1, edgeEx2] initialAgent
      = on_hotkey_press edgeEx1.deviceOk edgeEx1.now edgeEx1.format_mode initialAgent ∧
    (runActivates [edgeEx1, edgeEx2] initialAgent).recorder.startCalls
      = initialAgent.recorder.startCalls + 1 ∧
    startedCount (runActivates [edgeEx1, edgeEx2] initialAgent).emitted
      ≤ startedCount initialAgent.emitted + 1 :=
  C4_activate_idempotent initialAgent rfl edgeEx1 [edgeEx2]

/-! ### Claim C5 -/

def sessionFrame : List Int := [100, -5, 32]

def formatSessionEvents : List RawEvent :=
  [RawEvent.press Key.alt_l, RawEvent.press (Key.char 'm'),
   RawEvent.frame sessionFrame, RawEvent.release Key.alt_l]

def plainSessionEvents : List RawEvent :=
  [RawEvent.press Key.alt_l, RawEvent.press (Key.char 'z'),
   RawEvent.frame sessionFrame, RawEvent.release Key.alt_l]

/-- Claim C5: the `mode` field of the `process_audio` message.
In general, `_stop_recording` appends exactly one `process_audio`
message whose mode is the fixed override "outline" when
`format_mode_active` is set and the configured default mode otherwise;
end to end, for every configured default mode `m`, a full session
started via the format binding alt+m emits mode "outline" while one
started via the plain binding alt+z emits `m`. -/
theorem C5_effective_mode (m pm : String) (ag : AgentState)
    (hrec : ag.recorder.recording = true) (hdata : ag.recorder.audio_data ≠ [])
    (hconn : ag.connected = true) :
    processAudioModes (stop_recording true 0 ag).emitted
      = processAudioModes ag.emitted ++
        [if ag.format_mode_active then "outline" else ag.mode] ∧
    processAudioModes (run E formatSessionEvents (readySystem m pm)).agent.emitted
      = ["outline"] ∧
    processAudioModes (run E plainSessionEvents (readySystem m pm)).agent.emitted
      = [m] := by
  refine ⟨?_, by rfl, by rfl⟩
  have hsome := AudioRecorder.stop_some ag.recorder hrec hdata
  unfold stop_recording
  rcases hr : ag.recorder.stop true with ⟨res, rec⟩
  rw [hr] at hsome
  simp at hsome
  subst hsome
  simp [hr, hconn, processAudioModes, emitMode, List.filterMap_append]

def agRecordingEx : AgentState :=
  { initialAgent with
      connected := true
      format_mode_active := true
      mode := "concise"
      processing_mode := "cloud"
      recorder := { recording := true, audio_data := [[7]], stream := true, startCalls := 1 } }

theorem C5_witness :
    processAudioModes (stop_recording true 0 agRecordingEx).emitted
      = processAudioModes agRecordingEx.emitted ++
        [if agRecordingEx.format_mode_active then "outline" else agRecordingEx.mode] ∧
    processAudioModes (run E formatSessionEvents (readySystem "concise" "cloud")).agent.emitted
      = ["outline"] ∧
    processAudioModes (run E plainSessionEvents (readySystem "concise" "cloud")).agent.emitted
      = ["concise"] :=
  C5_effective_mode "concise" "cloud" agRecordingEx rfl (by decide) rfl

end LocalFlow
